import Mathlib

/-!
Shallow embedding of the booking service in src/app.py (the `callback`
repository): a Flask app whose `BookingService` keeps its primary ledger in
a CSV file (`prenotazioni.csv`) and mirrors bookings to a MongoDB
collection. We model the CSV rows and the MongoDB documents as lists of
`Booking` records, and each service method as a pure function from the
stores to a result together with the new stores. The `mirrorFails`
Boolean stands for the MongoDB call raising an exception (the source wraps
every MongoDB call in try/except and only logs the error).
-/

namespace Callback

/-- The fixed slot catalog, TIME_SLOTS in src/app.py. -/
def TIME_SLOTS : List String := ["10:00", "11:00", "12:00"]

/-- One row of the prenotazioni.csv ledger, equally the shape of a MongoDB
document inserted by book_slot: slot_id, time_slot, user_name, user_email,
booking_date, status. -/
structure Booking where
  slot_id : Int
  time_slot : String
  user_name : String
  user_email : String
  booking_date : String
  status : String
deriving DecidableEq, Repr

/-- The CSV ledger: its data rows in file order. A missing file reads as []. -/
abbrev Ledger := List Booking

/-- The MongoDB collection quixa_callback, in insertion order. -/
abbrev Mirror := List Booking

/-- BookingService.is_slot_available (src/app.py lines 80-89): scan the CSV;
return False on the first row whose slot_id matches and whose status is
booked, True otherwise (also when the file is missing). -/
def is_slot_available (ledger : Ledger) (slot_id : Int) : Bool :=
  !(ledger.any fun row => row.slot_id == slot_id && row.status == "booked")

/-- The row book_slot appends to the CSV and the document it inserts into
MongoDB (src/app.py lines 100-121). -/
def mkBooking (slot_id : Int) (user_name user_email booking_date : String) :
    Booking :=
  { slot_id := slot_id
    time_slot := TIME_SLOTS.getD slot_id.toNat ""
    user_name := user_name
    user_email := user_email
    booking_date := booking_date
    status := "booked" }

/-- BookingService.book_slot (src/app.py lines 91-126): range check, then
availability check, then append to the CSV, then a best-effort MongoDB
insert whose failure (mirrorFails) is only logged. Returns the (ok,
message) pair of the source together with the new CSV and MongoDB
contents. -/
def book_slot (ledger : Ledger) (mirror : Mirror) (mirrorFails : Bool)
    (slot_id : Int) (user_name user_email booking_date : String) :
    (Bool × String) × Ledger × Mirror :=
  if slot_id < 0 ∨ (TIME_SLOTS.length : Int) ≤ slot_id then
    ((false, "Slot ID non valido"), ledger, mirror)
  else if !(is_slot_available ledger slot_id) then
    ((false, "Slot già prenotato"), ledger, mirror)
  else
    let b := mkBooking slot_id user_name user_email booking_date
    ((true, "Prenotazione confermata"), ledger ++ [b],
      if mirrorFails then mirror else mirror ++ [b])

/-- MongoDB delete_one with filter slot_id + user_email + status booked:
remove the first matching document, if any. -/
def deleteOne (mirror : Mirror) (slot_id : Int) (user_email : String) :
    Mirror :=
  match mirror with
  | [] => []
  | d :: rest =>
    if d.slot_id == slot_id && d.user_email == user_email &&
        d.status == "booked" then
      rest
    else
      d :: deleteOne rest slot_id user_email

/-- BookingService.cancel_booking (src/app.py lines 128-145): range check,
then a best-effort MongoDB delete_one whose failure (mirrorFails) is only
logged; the CSV is never read or written, and the call returns success
whether or not any document matched. -/
def cancel_booking (ledger : Ledger) (mirror : Mirror) (mirrorFails : Bool)
    (slot_id : Int) (user_email : String) :
    (Bool × String) × Ledger × Mirror :=
  if slot_id < 0 ∨ (TIME_SLOTS.length : Int) ≤ slot_id then
    ((false, "Slot ID non valido"), ledger, mirror)
  else
    ((true, "Prenotazione cancellata"), ledger,
      if mirrorFails then mirror else deleteOne mirror slot_id user_email)

/-- The booked_slots dict built by get_all_slots_status: a later booked row
for the same slot_id overwrites an earlier one, so the entry for slot i is
the last booked row with slot_id i. -/
def lastBooked (ledger : Ledger) (i : Nat) : Option Booking :=
  (ledger.filter fun row =>
    row.status == "booked" && row.slot_id == (i : Int)).getLast?

/-- One entry of the GET /slots response: booked_by carries (user_name,
user_email, booking_date) and is present exactly when the slot is not
available. -/
structure SlotStatus where
  slot_id : Nat
  time_slot : String
  available : Bool
  booked_by : Option (String × String × String)
deriving DecidableEq, Repr

/-- The entry get_all_slots_status builds for catalog index i: available
iff no booked row has that slot_id, booked_by taken from the dict when
present. -/
def statusEntry (ledger : Ledger) (i : Nat) : SlotStatus :=
  match lastBooked ledger i with
  | none =>
    { slot_id := i, time_slot := TIME_SLOTS.getD i "",
      available := true, booked_by := none }
  | some r =>
    { slot_id := i, time_slot := TIME_SLOTS.getD i "",
      available := false,
      booked_by := some (r.user_name, r.user_email, r.booking_date) }

/-- BookingService.get_all_slots_status (src/app.py lines 57-78): one entry
per catalog index, in catalog order. -/
def get_all_slots_status (ledger : Ledger) : List SlotStatus :=
  (List.range TIME_SLOTS.length).map (statusEntry ledger)

/-- BookingService.get_available_slots (src/app.py lines 42-55): the
(slot_id, time_slot) pairs of the catalog indices that no booked CSV row
claims. -/
def get_available_slots (ledger : Ledger) : List (Nat × String) :=
  ((List.range TIME_SLOTS.length).filter fun i =>
      !(ledger.any fun row =>
        row.status == "booked" && row.slot_id == Int.ofNat i)).map
    fun i => (i, TIME_SLOTS.getD i "")

/-- The GET /available-mongo route (src/app.py lines 169-188): availability
computed from the MongoDB collection alone, filtering the hardcoded slot
labels by the time_slot values of booked documents. -/
def available_mongo (mirror : Mirror) : List String :=
  let all_slots := ["10:00", "11:00", "12:00"]
  let booked_slots := (mirror.filter fun d => d.status == "booked").map
    fun d => d.time_slot
  all_slots.filter fun s => !(booked_slots.contains s)

/-- The whole mutable state of the app: the CSV file and the MongoDB
collection. -/
structure AppState where
  ledger : Ledger
  mirror : Mirror
deriving DecidableEq, Repr

/-- GET /available as a query on the full state: it reads the CSV only. -/
def availableRoute (s : AppState) : List (Nat × String) :=
  get_available_slots s.ledger

/-- GET /slots as a query on the full state: it reads the CSV only. -/
def slotsRoute (s : AppState) : List SlotStatus :=
  get_all_slots_status s.ledger

/-- is_slot_available as a query on the full state: it reads the CSV only. -/
def isAvailableQuery (s : AppState) (slot_id : Int) : Bool :=
  is_slot_available s.ledger slot_id

/-- GET /available-mongo as a query on the full state: it reads MongoDB
only. -/
def availableMongoRoute (s : AppState) : List String :=
  available_mongo s.mirror

/-! Interleaving model for concurrent book_slot calls. book_slot touches
the shared CSV in two separate steps with no lock between them: first the
decision (range check plus is_slot_available, lines 92-96), later the
append (lines 100-109). We split it at that point and run several calls
under an explicit schedule of atomic steps. -/

/-- The decision book_slot takes before any write: the range check of line
92 followed by the is_slot_available call of line 95. -/
def bookCheck (ledger : Ledger) (slot_id : Int) : Bool :=
  decide (¬(slot_id < 0 ∨ (TIME_SLOTS.length : Int) ≤ slot_id)) &&
    is_slot_available ledger slot_id

/-- The CSV append of book_slot (lines 100-109). -/
def bookWrite (ledger : Ledger) (slot_id : Int)
    (user_name user_email booking_date : String) : Ledger :=
  ledger ++ [mkBooking slot_id user_name user_email booking_date]

/-- The arguments of one in-flight book_slot call. -/
structure BookArgs where
  slot_id : Int
  user_name : String
  user_email : String
  booking_date : String
deriving DecidableEq, Repr

/-- Progress of one in-flight book_slot call: not yet run, decision taken
(recorded), or returned with its success Boolean. -/
inductive Phase where
  | start : Phase
  | checked : Bool → Phase
  | done : Bool → Phase
deriving DecidableEq, Repr

/-- One in-flight book_slot call. -/
structure ThreadState where
  args : BookArgs
  phase : Phase
deriving DecidableEq, Repr

/-- Shared CSV plus the in-flight calls. -/
structure RaceState where
  ledger : Ledger
  threads : List ThreadState
deriving DecidableEq, Repr

/-- Advance call i by one atomic step: take its decision against the
current CSV, or perform its append and return success, or return failure.
A finished or missing call leaves the state unchanged. -/
def stepThread (s : RaceState) (i : Nat) : RaceState :=
  match s.threads.get? i with
  | none => s
  | some t =>
    match t.phase with
    | Phase.start =>
      let ok := bookCheck s.ledger t.args.slot_id
      let t' : ThreadState := { args := t.args, phase := Phase.checked ok }
      { ledger := s.ledger, threads := s.threads.set i t' }
    | Phase.checked true =>
      let t' : ThreadState := { args := t.args, phase := Phase.done true }
      { ledger := bookWrite s.ledger t.args.slot_id t.args.user_name
          t.args.user_email t.args.booking_date
        threads := s.threads.set i t' }
    | Phase.checked false =>
      let t' : ThreadState := { args := t.args, phase := Phase.done false }
      { ledger := s.ledger, threads := s.threads.set i t' }
    | Phase.done _ => s

/-- Run a schedule: at each tick the named call takes its next atomic
step. -/
def runSchedule (s : RaceState) (sched : List Nat) : RaceState :=
  sched.foldl stepThread s

/-- Number of calls that returned success. -/
def successCount (s : RaceState) : Nat :=
  s.threads.countP fun t => decide (t.phase = Phase.done true)

/-- Number of booked CSV rows for the given slot. -/
def bookedCount (ledger : Ledger) (slot_id : Int) : Nat :=
  ledger.countP fun row => row.slot_id == slot_id && row.status == "booked"

/-- When the decision of book_slot comes out true, the call returns success,
appends its row to the CSV, and the MongoDB insert (failing or not) does
not touch the CSV: book_slot is exactly bookCheck followed by bookWrite. -/
theorem book_slot_of_check (ledger : Ledger) (mirror : Mirror)
    (mirrorFails : Bool) (slot_id : Int) (n e d : String)
    (h : bookCheck ledger slot_id = true) :
    book_slot ledger mirror mirrorFails slot_id n e d =
      ((true, "Prenotazione confermata"), bookWrite ledger slot_id n e d,
        if mirrorFails then mirror
        else mirror ++ [mkBooking slot_id n e d]) := by
  unfold bookCheck at h
  rw [Bool.and_eq_true, decide_eq_true_eq] at h
  unfold book_slot bookWrite
  rw [if_neg h.1, h.2]
  simp

/-- The two concurrent book_slot calls of the race scenario, both on slot
0, over an initially empty CSV. -/
def raceStart : RaceState :=
  RaceState.mk []
    [ ThreadState.mk (BookArgs.mk 0 "Mario" "m@x.com" "d1") Phase.start,
      ThreadState.mk (BookArgs.mk 0 "Luigi" "l@x.com" "d2") Phase.start ]

/-- The round-trip scenario: from empty stores with the mirror up, book
slot 0 as Mario with m@x.com, then cancel slot 0 with m@x.com. Records the
two (ok, message) results and the final stores. -/
def roundTripTrace : ((Bool × String) × (Bool × String)) × AppState :=
  let r1 := book_slot [] [] false 0 "Mario" "m@x.com" "d1"
  let r2 := cancel_booking r1.2.1 r1.2.2 false 0 "m@x.com"
  ((r1.1, r2.1), AppState.mk r2.2.1 r2.2.2)

/-- The email-mismatch scenario: from empty stores with the mirror up, book
slot 0 as Mario with m@x.com, then cancel slot 0 with wrong@x.com. Records
the cancel result and the final stores. -/
def wrongEmailTrace : (Bool × String) × AppState :=
  let r1 := book_slot [] [] false 0 "Mario" "m@x.com" "d1"
  let r2 := cancel_booking r1.2.1 r1.2.2 false 0 "wrong@x.com"
  (r2.1, AppState.mk r2.2.1 r2.2.2)

theorem statusEntry_slot_id (ledger : Ledger) (i : Nat) :
    (statusEntry ledger i).slot_id = i := by
  unfold statusEntry
  cases lastBooked ledger i <;> rfl

theorem statusEntry_available_iff (ledger : Ledger) (i : Nat) :
    (statusEntry ledger i).available = (statusEntry ledger i).booked_by.isNone := by
  unfold statusEntry
  cases lastBooked ledger i <;> rfl

theorem countP_bool_split {α : Type} (p : α → Bool) (l : List α) :
    l.countP p + l.countP (fun a => !(p a)) = l.length := by
  induction l with
  | nil => rfl
  | cons x xs ih =>
    by_cases h : p x = true <;>
      simp [List.countP_cons, h] <;> omega

/-- C1: FALSE of the code (code bug). book_slot takes no lock between its
availability check and its CSV append, so under the interleaving in which
both of two concurrent book(0, ...) calls run their checks before either
append, both calls return success and the CSV ends with two booked rows
for slot 0 — the claim demands exactly one success and at most one booked
row. The same two calls run back to back do satisfy the claim, isolating
the violation to the interleaving. -/
theorem book_race_two_successes :
    successCount (runSchedule raceStart [0, 1, 0, 1]) = 2 ∧
    bookedCount (runSchedule raceStart [0, 1, 0, 1]).ledger 0 = 2 ∧
    successCount (runSchedule raceStart [0, 0, 1, 1]) = 1 ∧
    bookedCount (runSchedule raceStart [0, 0, 1, 1]).ledger 0 = 1 := by
  decide

/-- C2: FALSE of the code (code bug). In the round-trip scenario both calls
report success, but cancel_booking only deletes the MongoDB document and
never rewrites the CSV, so the booked row survives and is_slot_available
still answers false for slot 0 — the claim demands true. -/
theorem round_trip_leaves_slot_booked :
    roundTripTrace.1 =
      ((true, "Prenotazione confermata"), (true, "Prenotazione cancellata")) ∧
    is_slot_available roundTripTrace.2.ledger 0 = false ∧
    roundTripTrace.2.ledger = [mkBooking 0 "Mario" "m@x.com" "d1"] ∧
    roundTripTrace.2.mirror = [] := by
  decide

/-- C3: FALSE of the code (code bug). After booking slot 0 with m@x.com,
cancel_booking with wrong@x.com returns success ("Prenotazione
cancellata") instead of failing NotFound: the function never looks for a
matching booking (its MongoDB delete_one simply matches nothing). The
second half of the claim does hold: slot 0 remains booked in the CSV, and
here even the mirror document survives. -/
theorem cancel_wrong_email_reports_success :
    wrongEmailTrace.1 = (true, "Prenotazione cancellata") ∧
    is_slot_available wrongEmailTrace.2.ledger 0 = false ∧
    wrongEmailTrace.2.mirror = [mkBooking 0 "Mario" "m@x.com" "d1"] := by
  decide

/-- C4 counterexample: is_slot_available does no range check and has no
failure outcome at all — for the out-of-range references 3 and -1 it
returns the ordinary answer true (even when every catalog slot is booked)
instead of failing with InvalidSlot as the claim states. -/
theorem is_slot_available_no_range_check :
    is_slot_available [] 3 = true ∧
    is_slot_available [] (-1) = true ∧
    is_slot_available
      [mkBooking 0 "a" "a@x.com" "d1", mkBooking 1 "b" "b@x.com" "d2",
        mkBooking 2 "c" "c@x.com" "d3"] 3 = true := by
  decide

/-- C4 amended: is_slot_available never fails; for every slot_id, in range
or not, it returns true exactly when no CSV row with status booked carries
that slot_id. -/
theorem is_slot_available_iff (ledger : Ledger) (sid : Int) :
    is_slot_available ledger sid = true ↔
      ∀ row ∈ ledger, ¬(row.slot_id = sid ∧ row.status = "booked") := by
  unfold is_slot_available
  simp [List.any_eq_true, not_and]

/-- C5: book_slot rejects every out-of-range slot_id with "Slot ID non
valido" before touching either store, whatever their contents. -/
theorem book_slot_invalid_slot (ledger : Ledger) (mirror : Mirror)
    (mirrorFails : Bool) (sid : Int) (n e d : String)
    (h : sid < 0 ∨ (TIME_SLOTS.length : Int) ≤ sid) :
    book_slot ledger mirror mirrorFails sid n e d =
      ((false, "Slot ID non valido"), ledger, mirror) := by
  unfold book_slot
  rw [if_pos h]

/-- C5 witness: book(-1, ...) and book(N, ...) with N = 3 both fail with
the range error and leave the stores untouched. -/
theorem book_slot_invalid_slot_witness :
    book_slot [mkBooking 0 "a" "a@x.com" "d1"] [] false (-1) "Mario"
        "m@x.com" "d2" =
      ((false, "Slot ID non valido"), [mkBooking 0 "a" "a@x.com" "d1"], []) ∧
    book_slot [mkBooking 0 "a" "a@x.com" "d1"] [] false 3 "Mario"
        "m@x.com" "d2" =
      ((false, "Slot ID non valido"), [mkBooking 0 "a" "a@x.com" "d1"], []) :=
  ⟨book_slot_invalid_slot [mkBooking 0 "a" "a@x.com" "d1"] [] false (-1)
      "Mario" "m@x.com" "d2" (Or.inl (by decide)),
    book_slot_invalid_slot [mkBooking 0 "a" "a@x.com" "d1"] [] false 3
      "Mario" "m@x.com" "d2" (Or.inr (by decide))⟩

/-- C6 counterexample: book_slot performs no validation of user_name or
user_email — booking an available slot with both fields empty succeeds,
appends the row to the CSV and mirrors it, instead of failing with
ValidationError as the claim states. -/
theorem book_slot_empty_fields_succeed :
    book_slot [] [] false 0 "" "" "d1" =
      ((true, "Prenotazione confermata"), [mkBooking 0 "" "" "d1"],
        [mkBooking 0 "" "" "d1"]) := by
  decide

/-- C6 amended: book_slot applies no non-emptiness validation: for every
user_name and user_email, the empty strings included, a book call whose
range and availability checks pass succeeds and appends the booking. -/
theorem book_slot_no_validation (ledger : Ledger) (mirror : Mirror)
    (mirrorFails : Bool) (sid : Int) (n e d : String)
    (h : bookCheck ledger sid = true) :
    book_slot ledger mirror mirrorFails sid n e d =
      ((true, "Prenotazione confermata"), ledger ++ [mkBooking sid n e d],
        if mirrorFails then mirror else mirror ++ [mkBooking sid n e d]) := by
  have := book_slot_of_check ledger mirror mirrorFails sid n e d h
  rw [this]
  rfl

/-- C6 witness: with empty user fields and a failing mirror, booking slot 1
over a CSV that has slot 0 booked still succeeds and appends the row. -/
theorem book_slot_no_validation_witness :
    book_slot [mkBooking 0 "a" "a@x.com" "d1"] [] true 1 "" "" "d2" =
      ((true, "Prenotazione confermata"),
        [mkBooking 0 "a" "a@x.com" "d1"] ++ [mkBooking 1 "" "" "d2"],
        if true then [] else [] ++ [mkBooking 1 "" "" "d2"]) :=
  book_slot_no_validation [mkBooking 0 "a" "a@x.com" "d1"] [] true 1 "" ""
    "d2" (by decide)

/-- C7: mirror independence. When the range and availability checks pass
and the MongoDB insert fails, book_slot still returns success, the CSV
holds exactly what it holds when the insert succeeds, the new booking is
in the CSV, and the mirror is left as it was. -/
theorem book_slot_mirror_independent (ledger : Ledger) (mirror : Mirror)
    (sid : Int) (n e d : String) (h : bookCheck ledger sid = true) :
    (book_slot ledger mirror true sid n e d).1 =
      (true, "Prenotazione confermata") ∧
    (book_slot ledger mirror true sid n e d).2.1 =
      (book_slot ledger mirror false sid n e d).2.1 ∧
    mkBooking sid n e d ∈ (book_slot ledger mirror true sid n e d).2.1 ∧
    (book_slot ledger mirror true sid n e d).2.2 = mirror := by
  rw [book_slot_of_check ledger mirror true sid n e d h,
    book_slot_of_check ledger mirror false sid n e d h]
  simp [bookWrite]

/-- C7 witness: booking slot 0 on empty stores with a failing mirror
returns success, yields the same CSV as the run with a healthy mirror,
records the booking in the CSV, and leaves the mirror empty. -/
theorem book_slot_mirror_independent_witness :
    (book_slot [] [] true 0 "Mario" "m@x.com" "d1").1 =
      (true, "Prenotazione confermata") ∧
    (book_slot [] [] true 0 "Mario" "m@x.com" "d1").2.1 =
      (book_slot [] [] false 0 "Mario" "m@x.com" "d1").2.1 ∧
    mkBooking 0 "Mario" "m@x.com" "d1" ∈
      (book_slot [] [] true 0 "Mario" "m@x.com" "d1").2.1 ∧
    (book_slot [] [] true 0 "Mario" "m@x.com" "d1").2.2 = [] :=
  book_slot_mirror_independent [] [] 0 "Mario" "m@x.com" "d1" (by decide)

/-- C8: status accounting. For every CSV ledger, get_all_slots_status has
exactly TIME_SLOTS.length entries, their slot_ids are 0..N-1 in catalog
order, each entry is available exactly when it carries no booked_by, and
the available and non-available entries together count the whole list. -/
theorem list_slots_accounting (ledger : Ledger) :
    (get_all_slots_status ledger).length = TIME_SLOTS.length ∧
    (get_all_slots_status ledger).map (fun entry => entry.slot_id) =
      List.range TIME_SLOTS.length ∧
    (∀ entry ∈ get_all_slots_status ledger,
      entry.available = entry.booked_by.isNone) ∧
    (get_all_slots_status ledger).countP (fun entry => entry.available) +
      (get_all_slots_status ledger).countP (fun entry => !entry.available) =
      TIME_SLOTS.length := by
  refine ⟨by simp [get_all_slots_status], ?_, ?_, ?_⟩
  · unfold get_all_slots_status
    rw [List.map_map]
    have h : ∀ i ∈ List.range TIME_SLOTS.length,
        ((fun entry => entry.slot_id) ∘ statusEntry ledger) i = id i :=
      fun i _ => statusEntry_slot_id ledger i
    rw [List.map_congr_left h, List.map_id]
  · intro entry hmem
    unfold get_all_slots_status at hmem
    rw [List.mem_map] at hmem
    obtain ⟨i, _, rfl⟩ := hmem
    exact statusEntry_available_iff ledger i
  · rw [countP_bool_split (fun entry => entry.available)
      (get_all_slots_status ledger)]
    simp [get_all_slots_status]

/-- C9 counterexample: the GET /available-mongo route is an availability
query answered from the MongoDB mirror alone — two states with the same
(empty) CSV ledger but different mirror contents get different
availability answers from it, so not every availability query depends only
on the primary ledger. -/
theorem available_mongo_consults_mirror :
    (AppState.mk [] []).ledger =
      (AppState.mk [] [mkBooking 0 "Mario" "m@x.com" "d1"]).ledger ∧
    availableMongoRoute (AppState.mk [] []) ≠
      availableMongoRoute
        (AppState.mk [] [mkBooking 0 "Mario" "m@x.com" "d1"]) := by
  decide

/-- C9 amended: the CSV-backed availability queries — GET /available, GET
/slots and is_slot_available — depend only on the primary CSV ledger: any
two states with the same ledger, whatever their mirrors, get identical
answers. (The GET /available-mongo route, by contrast, answers from the
mirror alone.) -/
theorem csv_queries_mirror_independent (s1 s2 : AppState) (sid : Int)
    (h : s1.ledger = s2.ledger) :
    availableRoute s1 = availableRoute s2 ∧
    slotsRoute s1 = slotsRoute s2 ∧
    isAvailableQuery s1 sid = isAvailableQuery s2 sid := by
  unfold availableRoute slotsRoute isAvailableQuery
  rw [h]
  exact ⟨rfl, rfl, rfl⟩

/-- C9 witness: with the same empty ledger but different mirrors, the three
CSV-backed queries agree. -/
theorem csv_queries_mirror_independent_witness :
    availableRoute (AppState.mk [] []) =
      availableRoute (AppState.mk [] [mkBooking 0 "Mario" "m@x.com" "d1"]) ∧
    slotsRoute (AppState.mk [] []) =
      slotsRoute (AppState.mk [] [mkBooking 0 "Mario" "m@x.com" "d1"]) ∧
    isAvailableQuery (AppState.mk [] []) 0 =
      isAvailableQuery
        (AppState.mk [] [mkBooking 0 "Mario" "m@x.com" "d1"]) 0 :=
  csv_queries_mirror_independent (AppState.mk [] [])
    (AppState.mk [] [mkBooking 0 "Mario" "m@x.com" "d1"]) 0 rfl

/-- C10: for every in-range slot_id and every user_email, cancel_booking
returns success and leaves the CSV ledger exactly as it was — only the
MongoDB mirror may change — whether or not any matching booking exists. -/
theorem cancel_booking_preserves_csv (ledger : Ledger) (mirror : Mirror)
    (mirrorFails : Bool) (sid : Int) (e : String)
    (h : ¬(sid < 0 ∨ (TIME_SLOTS.length : Int) ≤ sid)) :
    (cancel_booking ledger mirror mirrorFails sid e).1 =
      (true, "Prenotazione cancellata") ∧
    (cancel_booking ledger mirror mirrorFails sid e).2.1 = ledger := by
  unfold cancel_booking
  rw [if_neg h]
  exact ⟨rfl, rfl⟩

/-- C10 witness: cancelling slot 0 for the very email that booked it still
leaves the CSV row in place (and reports success). -/
theorem cancel_booking_preserves_csv_witness :
    (cancel_booking [mkBooking 0 "Mario" "m@x.com" "d1"]
        [mkBooking 0 "Mario" "m@x.com" "d1"] false 0 "m@x.com").1 =
      (true, "Prenotazione cancellata") ∧
    (cancel_booking [mkBooking 0 "Mario" "m@x.com" "d1"]
        [mkBooking 0 "Mario" "m@x.com" "d1"] false 0 "m@x.com").2.1 =
      [mkBooking 0 "Mario" "m@x.com" "d1"] :=
  cancel_booking_preserves_csv [mkBooking 0 "Mario" "m@x.com" "d1"]
    [mkBooking 0 "Mario" "m@x.com" "d1"] false 0 "m@x.com" (by decide)

end Callback
